import Mathlib

/-!
# Verification of the trajectory-reconstruction core of Cloud9Hackathon

Shallow embedding, in Lean 4, of the round/side resolver
(`AttackDefenseParser.py`), the per-player trajectory sampler (`Player.py`),
the map transform (`Map.py`) and the one-pass event reader
(`PathScripts/PathGenerator.py`).

Modelling conventions:
* Python `float` values (timestamps in seconds, game coordinates,
  multipliers) are modelled as `ℚ`; Python `int` as `Int` (or `Nat` for the
  round counters, which are only ever incremented from 0).
* Python `None` becomes `none`; JSON strings become `String`.
* Python dictionaries keyed by strings are modelled as insertion-ordered
  association lists (`List (String × α)`), matching `dict` iteration order;
  dictionaries used only through point lookups (`self.paths`,
  `bucket_samples`, `last_bucket`, `map_states`) are modelled as functions
  into `Option`/default values, which is observationally equivalent.
* Truthiness tests (`if not s:`) on optional strings are modelled through
  `optStr` (missing and empty are both falsy); `str(x)` applied to a
  possibly-`None` value is `pyStr` (`str(None) = "None"`).
-/

/-- Python `x or ""` for an optional string: missing becomes `""`. -/
def optStr (a : Option String) : String := a.getD ""

/-- Python `str(x)` for `x` an optional string (`str(None) = "None"`). -/
def pyStr (a : Option String) : String :=
  match a with
  | none => "None"
  | some s => s

/-- Python `(a or b or "")` on two optional strings: first truthy wins. -/
def pyOr2 (a b : Option String) : String :=
  if optStr a ≠ "" then optStr a else optStr b

/-- Substring test (`"sub" in s` in Python, for nonempty `sub`):
`s.splitOn sub` has more than one chunk iff `sub` occurs in `s`. -/
def strContains (s sub : String) : Bool :=
  (s.splitOn sub).length > 1

/-- Python `s.endswith(suffix)` (`String.endsWith`, modelled over the
character lists so that it evaluates). -/
def pyEndsWith (s suffix : String) : Bool :=
  suffix.data.isSuffixOf s.data

/-- Python `int(x)` on a rational: truncation toward zero. -/
def pyTrunc (q : ℚ) : ℤ :=
  if 0 ≤ q then ⌊q⌋ else ⌈q⌉

/-- Equality on `ℚ` decided through the normalised numerator/denominator
pair (the instance that `deriving`/`decide` would otherwise use does not
evaluate). -/
instance ratDecEqNumDen : DecidableEq ℚ := fun a b =>
  decidable_of_iff (a.num = b.num ∧ a.den = b.den)
    ⟨fun h => Rat.ext h.1 h.2, fun h => by rw [h]; exact ⟨rfl, rfl⟩⟩

/-- Lookup in an insertion-ordered association list (Python `d.get(k)`). -/
def alistGet? {α : Type} (l : List (String × α)) (k : String) : Option α :=
  (l.find? (fun p => p.1 == k)).map Prod.snd

/-- Python `d[k] = v`: overwrite in place if the key exists (keeping its
insertion position), otherwise append at the end. -/
def alistSet {α : Type} (l : List (String × α)) (k : String) (v : α) :
    List (String × α) :=
  if l.any (fun p => p.1 == k) then
    l.map (fun p => if p.1 == k then (k, v) else p)
  else l ++ [(k, v)]

/-- Python `statistics.median`: middle element of the sorted list for odd
length, mean of the two middle elements for even length.  (Only ever called
on nonempty lists by this program.) -/
def pymedian (l : List ℚ) : ℚ :=
  let s := l.insertionSort (· ≤ ·)
  let n := s.length
  if n % 2 = 1 then s.getD (n / 2) 0
  else (s.getD (n / 2 - 1) 0 + s.getD (n / 2) 0) / 2

/-! ## `Map.py` -/

/-- `Map`: the per-map affine game-space → image-space transform. -/
structure MapObj where
  x_multiplier : ℚ
  y_multiplier : ℚ
  x_scalar_add : ℚ
  y_scalar_add : ℚ
  image_width : ℤ
  image_height : ℤ

/-- `Map.game_to_image`: note the source swaps the axes (`game_y` feeds the
image x coordinate). -/
def MapObj.game_to_image (m : MapObj) (game_x game_y : ℚ) : ℚ × ℚ :=
  ((game_y * m.x_multiplier + m.x_scalar_add) * (m.image_width : ℚ),
   (game_x * m.y_multiplier + m.y_scalar_add) * (m.image_height : ℚ))

/-! ## `Player.py`: the trajectory sampler -/

namespace Player

/-- `Position` (`Player.py`): one trajectory sample. -/
structure Position where
  t : ℚ
  gx : ℚ
  gy : ℚ
  net_worth : Option ℚ
  loadout_value : Option ℚ
  has_spike : Option Bool
deriving Repr

instance : DecidableEq Position := fun a b =>
  decidable_of_iff (a.t = b.t ∧ a.gx = b.gx ∧ a.gy = b.gy ∧
      a.net_worth = b.net_worth ∧ a.loadout_value = b.loadout_value ∧
      a.has_spike = b.has_spike)
    (by cases a; cases b; simp)

/-- The mutable state of one `Player` object: configuration plus the
per-round buffers (`self.paths`) and the encapsulated `DownsampleState`
(`bucket_samples` is a `defaultdict(list)`, so a missing key reads as `[]`;
`last_bucket` is a plain dict). -/
structure PlayerState where
  player_id : String
  name : String
  max_samples : Nat
  sample_hz : ℤ
  enable_downsample : Bool
  enable_median : Bool
  alive : Bool
  current_pos : Option Position
  paths : ℤ → Option (List Position)
  bucket_samples : ℤ × ℤ → List (ℚ × ℚ × ℚ)
  last_bucket : ℤ → Option ℤ

/-- A freshly constructed `Player(player_id, name)` with the default
configuration (`max_samples=2000, sample_hz=30`, downsampling and median
smoothing enabled). -/
def mk_player (player_id name : String) : PlayerState :=
  { player_id := player_id
    name := name
    max_samples := 2000
    sample_hz := 30
    enable_downsample := true
    enable_median := true
    alive := true
    current_pos := none
    paths := fun _ => none
    bucket_samples := fun _ => []
    last_bucket := fun _ => none }

/-- `Player.start_round`: fresh bounded deque for the round, revive the
player, and drop the round's last-emitted-bucket marker. -/
def start_round (p : PlayerState) (round_id : ℤ) : PlayerState :=
  { p with
    paths := fun r => if r = round_id then some [] else p.paths r
    alive := true
    last_bucket := fun r => if r = round_id then none else p.last_bucket r }

/-- `Player._trim_time_window`: pop from the front while the front sample is
more than `max_time` older than the incoming sample time `t`. -/
def trim_time_window (path : List Position) (t : ℚ) (max_time : Option ℚ) :
    List Position :=
  match max_time with
  | none => path
  | some m => path.dropWhile (fun q => decide (m < t - q.t))

/-- `Player._should_store_raw`. -/
def should_store_raw (p : PlayerState) : Bool :=
  (!p.enable_downsample) || decide (p.sample_hz ≤ 0)

/-- `Player._bucket_index`: `int(t * self.sample_hz)`. -/
def bucket_index (p : PlayerState) (t : ℚ) : ℤ :=
  pyTrunc (t * (p.sample_hz : ℚ))

/-- `Player._is_same_bucket`. -/
def is_same_bucket (p : PlayerState) (round_id bucket : ℤ) : Bool :=
  match p.last_bucket round_id with
  | none => false
  | some lb => bucket = lb

/-- `Player._representative_position`: median of the bucket (time-wise and
coordinate-wise) when median smoothing is on and at least 3 raw samples were
collected, else the most recent raw sample; economy/side fields are the
caller's latest values.  (The source indexes `samples[-1]`, which its caller
guarantees to exist; the `getD` default is never read.) -/
def representative_position (p : PlayerState) (samples : List (ℚ × ℚ × ℚ))
    (net_worth loadout_value : Option ℚ) (has_spike : Option Bool) :
    Position :=
  if p.enable_median ∧ 3 ≤ samples.length then
    { t := pymedian (samples.map (fun s => s.1))
      gx := pymedian (samples.map (fun s => s.2.1))
      gy := pymedian (samples.map (fun s => s.2.2))
      net_worth := net_worth
      loadout_value := loadout_value
      has_spike := has_spike }
  else
    let last := samples.getLast?.getD (0, 0, 0)
    { t := last.1
      gx := last.2.1
      gy := last.2.2
      net_worth := net_worth
      loadout_value := loadout_value
      has_spike := has_spike }

/-- `deque(maxlen=maxlen)` append: dropping from the left on overflow. -/
def dequeAppend (maxlen : Nat) (path : List Position) (pos : Position) :
    List Position :=
  let b := path ++ [pos]
  b.drop (b.length - maxlen)

/-- Store a new buffer for `round_id` (all in-place deque mutations are
modelled by writing the buffer back into `paths`). -/
def set_path (p : PlayerState) (round_id : ℤ) (path : List Position) :
    PlayerState :=
  { p with paths := fun r => if r = round_id then some path else p.paths r }

/-- `Player._append_position`: append to the round's deque and update
`current_pos`. -/
def append_position (p : PlayerState) (round_id : ℤ) (path : List Position)
    (pos : Position) : PlayerState :=
  { set_path p round_id (dequeAppend p.max_samples path pos) with
    current_pos := some pos }

/-- The downsampling branch of `Player.record_position` (the code after
`# Downsample: bucket samples then possibly emit one representative
point`): append the raw sample to its bucket accumulator; emit one
representative (and update the last-emitted bucket, discarding stale
accumulators) only when the bucket differs from the last emitted one. -/
def record_downsampled (p : PlayerState) (round_id : ℤ) (t : ℚ)
    (path : List Position) (net_worth loadout_value : Option ℚ)
    (has_spike : Option Bool) (gx gy : ℚ) : PlayerState :=
  let bucket := bucket_index p t
  let p := { p with
    bucket_samples := fun k =>
      if k = (round_id, bucket) then
        p.bucket_samples (round_id, bucket) ++ [(t, gx, gy)]
      else p.bucket_samples k }
  if is_same_bucket p round_id bucket then p
  else
    let samples := p.bucket_samples (round_id, bucket)
    if samples = [] then p
    else
      let pos := representative_position p samples net_worth
        loadout_value has_spike
      let p := append_position p round_id path pos
      let p := { p with
        last_bucket := fun r =>
          if r = round_id then some bucket else p.last_bucket r }
      { p with
        bucket_samples := fun k =>
          if k = (round_id, bucket - 2) then [] else p.bucket_samples k }

/-- `Player.record_position`.  Mirrors the source line by line:
accept-check (with lazy round creation), in-place trim, then either a raw
append or the downsampling bucket logic. -/
def record_position (p : PlayerState) (round_id : ℤ) (t gx gy : ℚ)
    (max_time : Option ℚ) (net_worth loadout_value : Option ℚ)
    (has_spike : Option Bool) : PlayerState :=
  -- `_should_accept_sample`: dead players reject; a missing round deque is
  -- created lazily via `start_round`.
  if !p.alive then p
  else
    let p := if (p.paths round_id).isNone then start_round p round_id else p
    let path := trim_time_window ((p.paths round_id).getD []) t max_time
    let p := set_path p round_id path
    if should_store_raw p then
      append_position p round_id path
        { t := t, gx := gx, gy := gy, net_worth := net_worth
          loadout_value := loadout_value, has_spike := has_spike }
    else
      record_downsampled p round_id t path net_worth loadout_value
        has_spike gx gy

/-- `Player.mark_dead`. -/
def mark_dead (p : PlayerState) : PlayerState :=
  { p with alive := false }

end Player

/-! ## The event model

JSON state payloads (`seriesState`, `seriesStateDelta`, `actor.state`, …)
are nested `games → teams → players` structures; only the fields this
program reads are modelled.  `Option` marks a field that may be absent
(or JSON `null`). -/

/-- One inventory item (`id`/`name` are read lowercased for the spike
check). -/
structure PItem where
  id : Option String
  name : Option String
deriving DecidableEq, Repr

/-- A player's `character` payload. -/
structure PCharacter where
  name : Option String
  id : Option String
deriving DecidableEq, Repr

/-- One player inside a team payload.  A missing `position` is the same as
a position with a missing coordinate, so the two coordinates are inlined. -/
structure PPlayer where
  id : Option String
  name : Option String
  nickname : Option String
  pos_x : Option ℚ
  pos_y : Option ℚ
  netWorth : Option ℚ
  loadoutValue : Option ℚ
  items : List PItem
  character : Option PCharacter
deriving DecidableEq, Repr

/-- One team inside a game payload (`won` only appears inside round outcome
segments). -/
structure PTeam where
  id : Option String
  name : Option String
  side : Option String
  won : Option Bool
  players : List PPlayer
deriving DecidableEq, Repr

/-- One outcome segment of a game (`type == "round"` segments carry the
per-round winner flags). -/
structure PSegment where
  type : Option String
  sequenceNumber : Option ℤ
  teams : List PTeam
deriving DecidableEq, Repr

/-- One game inside a state payload (`map_name` is `game["map"]["name"]`;
`started`/`finished` are truthiness tests in the source, so they are
booleans here, with "absent" read as `false`). -/
structure PGame where
  id : Option String
  map_name : Option String
  started : Bool
  finished : Bool
  teams : List PTeam
  segments : List PSegment
deriving DecidableEq, Repr

/-- A full or delta state snapshot: a list of games. -/
structure PState where
  games : List PGame
deriving DecidableEq, Repr

/-- One event.  `actorType`/`actorId` (resp. target) model
`event["actor"]["type"]`/`["id"]`, used by `_event_game_id`. -/
structure PEvent where
  type : Option String
  occurredAt : Option ℚ
  seriesState : Option PState
  seriesStateDelta : Option PState
  actorType : Option String
  actorId : Option String
  actorState : Option PState
  actorStateDelta : Option PState
  targetType : Option String
  targetId : Option String
  targetState : Option PState
  targetStateDelta : Option PState
deriving DecidableEq, Repr

/-- One JSONL record: optional `seriesId` and `occurredAt`, plus embedded
events. -/
structure PRecord where
  seriesId : Option String
  occurredAt : Option ℚ
  events : List PEvent
deriving DecidableEq, Repr

/-- `_state_candidates` (also the inlined candidate lists in
`PathGenerator`): the fixed priority order of state payload containers. -/
def state_candidates (e : PEvent) : List (Option PState) :=
  [e.seriesState, e.seriesStateDelta, e.actorState, e.actorStateDelta,
   e.targetState, e.targetStateDelta]

/-- `_iter_events`: an event missing its own timestamp inherits the
enclosing record's (truthy) timestamp. -/
def iter_events (r : PRecord) : List PEvent :=
  r.events.map fun e =>
    match r.occurredAt, e.occurredAt with
    | some t, none => { e with occurredAt := some t }
    | _, _ => e

/-- All events of a record stream, in order. -/
def all_events (records : List PRecord) : List PEvent :=
  (records.map iter_events).flatten

/-- `_is_round_start` (identical in both source files). -/
def is_round_start (t : Option String) : Bool :=
  t = some "game-started-round" || t = some "round-started-freezetime" ||
    t = some "round-started"

/-! ## `AttackDefenseParser.py`: the round/side resolver -/

/-- A team's side record (`_extract_team_sides` / `_find_round_winner`
output shape: id, name, side). -/
structure TeamSide where
  id : Option String
  name : Option String
  side : Option String
deriving DecidableEq, Repr

/-- One resolved round: timestamp, team sides, optional winner. -/
structure RoundEntry where
  occurredAt : Option ℚ
  teams : List TeamSide
  winner : Option TeamSide
deriving DecidableEq, Repr

/-- One game's entry in the resolver output: map name plus rounds keyed by
`str(round_number)`. -/
structure GameEntry where
  map : Option String
  rounds : List (String × RoundEntry)
deriving DecidableEq, Repr

/-- The resolver output (`{"seriesId": …, "games": {...}}`). -/
structure SideData where
  seriesId : Option String
  games : List (String × GameEntry)
deriving DecidableEq, Repr

/-- `_event_game_id`: a game id referenced directly by the event's `actor`
or `target` payload. -/
def event_game_id (e : PEvent) : Option String :=
  if e.actorType = some "game" ∧ optStr e.actorId ≠ "" then
    some (optStr e.actorId)
  else if e.targetType = some "game" ∧ optStr e.targetId ≠ "" then
    some (optStr e.targetId)
  else none

/-- `_select_game`: prefer the game whose id matches an explicit game
reference on the event, else fall back to the first started-and-not-finished
game. -/
def select_game (e : PEvent) : Option PGame :=
  let wanted := event_game_id e
  let first := (state_candidates e).findSome? fun st? =>
    st?.bind fun st => st.games.findSome? fun g =>
      match wanted with
      | some wid => if pyStr g.id = wid then some g else none
      | none => none
  match first with
  | some g => some g
  | none =>
    (state_candidates e).findSome? fun st? =>
      st?.bind fun st => st.games.findSome? fun g =>
        if g.started ∧ ¬g.finished then some g else none

/-- `_extract_team_sides`. -/
def extract_team_sides (g : PGame) : List TeamSide :=
  g.teams.map fun tm => { id := tm.id, name := tm.name, side := tm.side }

/-- `_find_round_winner`: scan the game's segments for a `"round"` segment
with the round's sequence number and return the first team flagged
`won == True` in it, if any. -/
def find_round_winner (g : PGame) (round_number : ℤ) : Option TeamSide :=
  g.segments.findSome? fun seg =>
    if seg.type ≠ some "round" then none
    else if seg.sequenceNumber ≠ some round_number then none
    else seg.teams.findSome? fun tm =>
      if tm.won = some true then
        some { id := tm.id, name := tm.name, side := tm.side }
      else none

/-- The resolver's running state: per-game round counters plus the output
being built. -/
structure ParseState where
  rounds_by_game : String → ℕ
  output : SideData

/-- The body of the resolver loop for one event
(`parse_attack_defense_rounds`): on a round-start, resolve a game, bump its
counter and record the round entry; everything else is skipped. -/
def parse_round_event (st : ParseState) (e : PEvent) : ParseState :=
  if ¬is_round_start e.type then st
  else
    match select_game e with
    | none => st
    | some g =>
      let game_id := pyStr g.id
      if game_id = "" then st
      else
        let n := st.rounds_by_game game_id + 1
        let entry : RoundEntry :=
          { occurredAt := e.occurredAt
            teams := extract_team_sides g
            winner := find_round_winner g (n : ℤ) }
        let ge :=
          match alistGet? st.output.games game_id with
          | some ge => ge
          | none => { map := g.map_name, rounds := [] }
        let ge := { ge with rounds := alistSet ge.rounds (Nat.repr n) entry }
        { rounds_by_game := fun k =>
            if k = game_id then n else st.rounds_by_game k
          output := { st.output with
            games := alistSet st.output.games game_id ge } }

/-- The record-level resolver step: adopt the first truthy `seriesId`, then
fold the record's events. -/
def parse_record (st : ParseState) (r : PRecord) : ParseState :=
  let st :=
    if optStr r.seriesId ≠ "" ∧ st.output.seriesId = none then
      { st with output := { st.output with seriesId := r.seriesId } }
    else st
  (iter_events r).foldl parse_round_event st

/-- `parse_attack_defense_rounds` up to (but not including) the optional
JSON dump: the full resolver state after one pass. -/
def parse_attack_defense_state (records : List PRecord) : ParseState :=
  records.foldl parse_record
    { rounds_by_game := fun _ => 0
      output := { seriesId := none, games := [] } }

/-- `parse_attack_defense_rounds`: the returned side/winner table. -/
def parse_attack_defense_rounds (records : List PRecord) : SideData :=
  (parse_attack_defense_state records).output

/-- The game id a round-start event is resolved to, if any (`None`-valued
ids stringify to `"None"`, which is a valid—truthy—key). -/
def resolved_game_id (e : PEvent) : Option String :=
  if ¬is_round_start e.type then none
  else
    match select_game e with
    | none => none
    | some g => if pyStr g.id = "" then none else some (pyStr g.id)

/-! ## `PathScripts/PathGenerator.py`: the one-pass event reader -/

/-- `player_key == pid or player_key == pname` matching used by all the
per-player locators (`pid = str(player.get("id", ""))`,
`pname = (name or nickname or "").lower()`). -/
def playerMatches (player_key : String) (pl : PPlayer) : Bool :=
  let pid := optStr pl.id
  let pname := (pyOr2 pl.name pl.nickname).toLower
  player_key = pid || player_key = pname

/-- `_player_has_spike`: any inventory item whose id or (lowercased) name
contains `"spike"` or `"bomb"`. -/
def player_has_spike (pl : PPlayer) : Bool :=
  pl.items.any fun it =>
    let item_id := (optStr it.id).toLower
    let item_name := (optStr it.name).toLower
    strContains item_id "spike" || strContains item_name "spike" ||
      strContains item_id "bomb" || strContains item_name "bomb"

/-- The snapshot payload `_find_player_snapshot` returns. -/
structure Snapshot where
  gx : ℚ
  gy : ℚ
  net_worth : Option ℚ
  loadout_value : Option ℚ
  has_spike : Bool
deriving Repr

instance : DecidableEq Snapshot := fun a b =>
  decidable_of_iff (a.gx = b.gx ∧ a.gy = b.gy ∧
      a.net_worth = b.net_worth ∧ a.loadout_value = b.loadout_value ∧
      a.has_spike = b.has_spike)
    (by cases a; cases b; simp)

/-- `_find_player_snapshot`: first matching player with a complete position
across all candidate containers (a matching player without a position does
not stop the scan). -/
def find_player_snapshot (e : PEvent) (player_key : String) :
    Option Snapshot :=
  (state_candidates e).findSome? fun st? =>
    st?.bind fun st => st.games.findSome? fun g =>
      g.teams.findSome? fun tm =>
        tm.players.findSome? fun pl =>
          if playerMatches player_key pl then
            match pl.pos_x, pl.pos_y with
            | some x, some y =>
              some { gx := x, gy := y, net_worth := pl.netWorth
                     loadout_value := pl.loadoutValue
                     has_spike := player_has_spike pl }
            | _, _ => none
          else none

/-- `_find_map_name`: first truthy `game["map"]["name"]` across all
candidate containers. -/
def find_map_name (e : PEvent) : Option String :=
  (state_candidates e).findSome? fun st? =>
    st?.bind fun st => st.games.findSome? fun g =>
      match g.map_name with
      | some m => if m = "" then none else some m
      | none => none

/-- `_find_player_team_id`: the first matching player's team id and game id
(`(None, None)` when the player is not found). -/
def find_player_team_id (e : PEvent) (player_key : String) :
    Option String × Option String :=
  let found := (state_candidates e).findSome? fun st? =>
    st?.bind fun st => st.games.findSome? fun g =>
      g.teams.findSome? fun tm =>
        tm.players.findSome? fun pl =>
          if playerMatches player_key pl then some (tm.id, g.id) else none
  match found with
  | some r => r
  | none => (none, none)

/-- `_find_player_agent`: the first matching player carrying a truthy
agent/character name (or id); a matching player without one does not stop
the scan. -/
def find_player_agent (e : PEvent) (player_key : String) :
    Option String × Option String :=
  let found := (state_candidates e).findSome? fun st? =>
    st?.bind fun st => st.games.findSome? fun g =>
      g.teams.findSome? fun tm =>
        tm.players.findSome? fun pl =>
          if playerMatches player_key pl then
            let agent := pyOr2 (pl.character.bind PCharacter.name)
              (pl.character.bind PCharacter.id)
            if agent = "" then none else some (some agent, g.id)
          else none
  match found with
  | some r => r
  | none => (none, none)

/-- `_lookup_player_side`: `(game id, per-game round number, team id)` →
side, through the resolver table; any miss yields `None`. -/
def lookup_player_side (side_data : SideData) (game_id : Option String)
    (round_id : ℕ) (team_id : Option String) : Option String :=
  if optStr game_id = "" ∨ optStr team_id = "" then none
  else
    match alistGet? side_data.games (optStr game_id) with
    | none => none
    | some game_entry =>
      match alistGet? game_entry.rounds (Nat.repr round_id) with
      | none => none
      | some round_entry =>
        (round_entry.teams.find? fun tm =>
          pyStr tm.id == optStr team_id).bind TeamSide.side

/-- `_should_mark_game_end`. -/
def should_mark_game_end (t : Option String) : Bool :=
  t = some "series-ended-game" || t = some "team-won-game"

/-- `_update_current_map`: a detected map replaces the tracked current map
only when the current map is unset, or right after a game-end signal (and
then the latch is cleared). -/
def update_current_map (detected_map current_map_name : Option String)
    (game_ended : Bool) : Option String × Bool :=
  if optStr detected_map ≠ "" ∧
      (current_map_name = none ∨
        (game_ended ∧ detected_map ≠ current_map_name)) then
    (detected_map, false)
  else (current_map_name, game_ended)

/-- `_select_active_map`: `detected_map or current_map_name`. -/
def select_active_map (detected_map current_map_name : Option String) :
    Option String :=
  if optStr detected_map ≠ "" then detected_map else current_map_name

/-- The per-map tracking state created by `_ensure_map_state` — note it is
keyed by map name only and shared by every tracked player sighted under
that map. -/
structure MapStateD where
  map_obj : Option MapObj
  player_all : Player.PlayerState
  player_attack : Player.PlayerState
  player_defense : Player.PlayerState
  round_id : ℕ
  round_in_game : ℕ
  round_start : Option ℚ
  player_team_id : Option String
  game_id : Option String
  current_side : Option String
  game_agents : List (String × String)

/-- `_ensure_map_state`: lazily create the per-map state.  The filesystem
lookup `_resolve_map_json`/`Map.from_map_json` is abstracted into the
`resolve_map` oracle (the `map_cache` side table, which is only read again
at output time, is not modelled). -/
def ensure_map_state (active_map : String)
    (map_states : String → Option MapStateD)
    (resolve_map : String → Option MapObj)
    (player_id_or_name : String) : MapStateD :=
  match map_states active_map with
  | some st => st
  | none =>
    { map_obj := resolve_map active_map
      player_all := Player.mk_player player_id_or_name player_id_or_name
      player_attack := Player.mk_player player_id_or_name player_id_or_name
      player_defense := Player.mk_player player_id_or_name player_id_or_name
      round_id := 0
      round_in_game := 0
      round_start := none
      player_team_id := none
      game_id := none
      current_side := none
      game_agents := [] }

/-- The round-start block of `_process_event_for_player` (the first half of
the function body, entered once the event time is known): bump the shared
global round counter, restart all three side buckets, re-bind the team,
reset the per-game counter on a game change (recording the agent), bump the
per-game counter and re-resolve the side. -/
def round_start_update (event : PEvent) (event_time : ℚ) (state : MapStateD)
    (player_key : String) (side_data : SideData) : MapStateD :=
  if is_round_start event.type then
    let rid := state.round_id + 1
    let state := { state with
      round_id := rid
      round_start := some event_time
      player_all := Player.start_round state.player_all (rid : ℤ)
      player_attack := Player.start_round state.player_attack (rid : ℤ)
      player_defense := Player.start_round state.player_defense (rid : ℤ) }
    let tg := find_player_team_id event player_key
    let state :=
      if optStr tg.1 ≠ "" then { state with player_team_id := tg.1 }
      else state
    let state :=
      if optStr tg.2 ≠ "" ∧ tg.2 ≠ state.game_id then
        let state := { state with game_id := tg.2, round_in_game := 0 }
        let ag := find_player_agent event player_key
        if optStr ag.1 ≠ "" ∧ optStr ag.2 ≠ "" then
          { state with
            game_agents := alistSet state.game_agents (optStr ag.2)
              (optStr ag.1) }
        else state
      else state
    let rig := state.round_in_game + 1
    let state := { state with round_in_game := rig }
    { state with
      current_side :=
        lookup_player_side side_data state.game_id rig state.player_team_id }
  else state

/-- The outlier guard of `_process_event_for_player`
(`abs(gx) > 20000 or abs(gy) > 20000`, or the `(-1000.0022, 0)` sentinel
within `1e-3`). -/
def is_junk_position (gx gy : ℚ) : Bool :=
  (|gx| > 20000 ∨ |gy| > 20000) ∨
    (|gx + 10000022 / 10000| < 1 / 1000 ∧ |gy| < 1 / 1000)

/-- The soft-clamp check of `_process_event_for_player`: with a map
transform configured, drop positions projecting more than 25 pixels outside
the image bounds. -/
def is_outside_map (map_obj : Option MapObj) (gx gy : ℚ) : Bool :=
  match map_obj with
  | none => false
  | some m =>
    let p := m.game_to_image gx gy
    let w : ℚ := (m.image_width : ℚ)
    let h : ℚ := (m.image_height : ℚ)
    let tol : ℚ := 25
    p.1 < -tol ∨ p.1 > w + tol ∨ p.2 < -tol ∨ p.2 > h + tol

/-- The recording phase of `_process_event_for_player` (the second half of
the function body): elapsed-time gate, snapshot lookup, outlier and
soft-clamp rejection, then forwarding to the `all` bucket and to the
side-specific bucket (the spike flag is kept only while attacking and
explicitly cleared while defending). -/
def record_phase (event : PEvent) (event_time : ℚ) (state : MapStateD)
    (player_key : String) (seconds_limit : ℚ) : MapStateD :=
  match state.round_start with
  | none => state
  | some round_start =>
    let elapsed := event_time - round_start
    if elapsed < 0 then state
    else
      match find_player_snapshot event player_key with
      | none => state
      | some snapshot =>
        if is_junk_position snapshot.gx snapshot.gy then state
        else if is_outside_map state.map_obj snapshot.gx snapshot.gy then
          state
        else
          let side := (optStr state.current_side).toLower
          let is_attack :=
            side = "attacker" ∨ side = "attack" ∨ side = "attacking"
          let has_spike : Option Bool :=
            if is_attack then some snapshot.has_spike else none
          let state := { state with
            player_all := Player.record_position state.player_all
              (state.round_id : ℤ) elapsed snapshot.gx snapshot.gy
              (some seconds_limit) snapshot.net_worth snapshot.loadout_value
              has_spike }
          if is_attack then
            { state with
              player_attack := Player.record_position state.player_attack
                (state.round_id : ℤ) elapsed snapshot.gx snapshot.gy
                (some seconds_limit) snapshot.net_worth
                snapshot.loadout_value has_spike }
          else if side = "defender" ∨ side = "defense" ∨
              side = "defending" then
            { state with
              player_defense := Player.record_position state.player_defense
                (state.round_id : ℤ) elapsed snapshot.gx snapshot.gy
                (some seconds_limit) snapshot.net_worth
                snapshot.loadout_value none }
          else state

/-- `_process_event_for_player`: events without a (possibly inherited)
timestamp are ignored; otherwise the round-start block runs first and the
recording phase second. -/
def process_event_for_player (event : PEvent) (state : MapStateD)
    (player_key : String) (seconds_limit : ℚ) (side_data : SideData) :
    MapStateD :=
  match event.occurredAt with
  | none => state
  | some event_time =>
    record_phase event event_time
      (round_start_update event event_time state player_key side_data)
      player_key seconds_limit

/-- The payload `_extract_player_snapshots` stores per tracked player (the
driver loop only uses the keys, but the payload is modelled for
completeness). -/
structure SnapPayload where
  team_id : Option String
  game_id : Option String
  map_name : Option String
  gx : Option ℚ
  gy : Option ℚ
deriving DecidableEq, Repr

/-- `_extract_player_snapshots`: one pass over every candidate container
collecting, per wanted player key, that player's latest payload (later
sightings overwrite earlier ones in place, like a `dict`). -/
def extract_player_snapshots (event : PEvent) (wanted : List String) :
    List (String × SnapPayload) :=
  (state_candidates event).foldl
    (fun out st? =>
      match st? with
      | none => out
      | some st =>
        st.games.foldl
          (fun out g =>
            g.teams.foldl
              (fun out tm =>
                tm.players.foldl
                  (fun out pl =>
                    let pid := (optStr pl.id).toLower
                    let pname := (pyOr2 pl.name pl.nickname).toLower
                    let key :=
                      if wanted.contains pid then pid
                      else if wanted.contains pname then pname
                      else ""
                    if key = "" then out
                    else
                      let payload : SnapPayload :=
                        { team_id :=
                            if optStr tm.id ≠ "" then some (optStr tm.id)
                            else none
                          game_id :=
                            if optStr g.id ≠ "" then some (optStr g.id)
                            else none
                          map_name :=
                            if optStr g.map_name ≠ "" then
                              some (optStr g.map_name).toLower
                            else none
                          gx := match pl.pos_x, pl.pos_y with
                            | some x, some _ => some x
                            | _, _ => none
                          gy := match pl.pos_x, pl.pos_y with
                            | some _, some y => some y
                            | _, _ => none }
                      alistSet out key payload)
                  out)
              out)
          out)
    []

/-- The running state of `build_team_round_paths_one_pass` (the `seen_maps`
debug counter and the output writing are not modelled). -/
structure RunState where
  map_states : String → Option MapStateD
  current_map_name : Option String
  game_ended : Bool

/-- The body of the driver loop for one event: game-end latch, map
detection, map-switch guard, active-map filter, then one
`_process_event_for_player` per tracked player sighted in the event, all
against the same per-map state. -/
def process_one_event (wanted : List String) (allowed : Option (List String))
    (resolve_map : String → Option MapObj) (seconds_limit : ℚ)
    (side_data : SideData) (rs : RunState) (event : PEvent) : RunState :=
  let game_ended :=
    if should_mark_game_end event.type then true else rs.game_ended
  let detected_map := find_map_name event
  let cm := update_current_map detected_map rs.current_map_name game_ended
  let rs' : RunState :=
    { rs with current_map_name := cm.1, game_ended := cm.2 }
  let active := optStr (select_active_map detected_map rs'.current_map_name)
  if active = "" then rs'
  else
    let active_map_l := active.toLower
    if (match allowed with
        | some al => !al.contains active_map_l
        | none => false) then rs'
    else
      let snapshots := extract_player_snapshots event wanted
      { rs' with
        map_states :=
          snapshots.foldl
            (fun ms pk_ctx =>
              let st := ensure_map_state active_map_l ms resolve_map
                pk_ctx.1
              let st := process_event_for_player event st pk_ctx.1
                seconds_limit side_data
              fun k => if k = active_map_l then some st else ms k)
            rs'.map_states }

/-- `build_team_round_paths_one_pass` up to output assembly: resolver pass,
lowercasing of the wanted keys and allowed maps, then the one-pass fold over
all events. -/
def build_team_round_paths_one_pass (records : List PRecord)
    (player_names_or_ids : List String) (seconds_limit : ℚ)
    (allowed_maps : Option (List String))
    (resolve_map : String → Option MapObj) : RunState :=
  let side_data := parse_attack_defense_rounds records
  let wanted := player_names_or_ids.map String.toLower
  let allowed := allowed_maps.map (fun l => l.map String.toLower)
  (all_events records).foldl
    (process_one_event wanted allowed resolve_map seconds_limit side_data)
    { map_states := fun _ => none, current_map_name := none
      game_ended := false }

/-! ## `_iter_jsonl_records` (identical in `AttackDefenseParser.py` and
`PathGenerator.py`): the archive branch.

Filesystem access is modelled by giving the archive's member listing
directly; each member carries its (already JSON-decoded) records. -/

/-- A `.zip` archive: the path (for the error message) and the ordered
member list. -/
structure ZipArchive where
  path : String
  members : List (String × List PRecord)

/-- The `.zip` branch of `_iter_jsonl_records`: fail with a not-found error
when no member name ends in `.jsonl`, else stream the records of the first
matching member. -/
def iter_jsonl_records_zip (archive : ZipArchive) :
    Except String (List PRecord) :=
  match archive.members.find? (fun m => pyEndsWith m.1 ".jsonl") with
  | none => Except.error ("No .jsonl file found inside " ++ archive.path)
  | some m => Except.ok m.2

/-! ## Concrete inputs used by witnesses and counterexamples -/

/-- An event with every field absent. -/
def emptyEvent : PEvent :=
  { type := none, occurredAt := none, seriesState := none
    seriesStateDelta := none, actorType := none, actorId := none
    actorState := none, actorStateDelta := none, targetType := none
    targetId := none, targetState := none, targetStateDelta := none }

/-- A player payload with an id and a position only. -/
def mkSimplePlayer (pid : String) (x y : ℚ) : PPlayer :=
  { id := some pid, name := none, nickname := none, pos_x := some x
    pos_y := some y, netWorth := none, loadoutValue := none, items := []
    character := none }

/-- A one-team, one-game state payload. -/
def mkOneTeamState (game_id map_name team_id : String)
    (players : List PPlayer) : PState :=
  { games := [
      { id := some game_id, map_name := some map_name, started := true
        finished := false
        teams := [
          { id := some team_id, name := none, side := some "attacker"
            won := none, players := players }]
        segments := [] }] }

/-- C1 input: a single round-start event carrying positions for the two
tracked players `p1` and `p2` on map `MapA`. -/
def evC1 : PEvent :=
  { emptyEvent with
    type := some "round-started", occurredAt := some 0
    seriesState := some (mkOneTeamState "g1" "MapA" "t1"
      [mkSimplePlayer "p1" 1 2, mkSimplePlayer "p2" 3 4]) }

/-- C1 run: one record, one round-start event, two tracked players. -/
def runC1 : RunState :=
  build_team_round_paths_one_pass
    [{ seriesId := none, occurredAt := none, events := [evC1] }]
    ["p1", "p2"] 5 none (fun _ => none)

/-- C3 input, first event: a round-start that establishes map `MapA`. -/
def evC3A : PEvent :=
  { emptyEvent with
    type := some "round-started", occurredAt := some 0
    seriesState := some (mkOneTeamState "g1" "MapA" "t1"
      [mkSimplePlayer "p1" 1 2]) }

/-- C3 input, second event: a round-start whose state payload reports map
`MapB`, with no game-end signal in between. -/
def evC3B : PEvent :=
  { emptyEvent with
    type := some "round-started", occurredAt := some 10
    seriesState := some (mkOneTeamState "g2" "MapB" "t1"
      [mkSimplePlayer "p1" 1 2]) }

/-- C3 run. -/
def runC3 : RunState :=
  build_team_round_paths_one_pass
    [{ seriesId := none, occurredAt := none, events := [evC3A, evC3B] }]
    ["p1"] 5 none (fun _ => none)

/-- C4 input: a `Player` with `sample_hz = 1` (one-second buckets), other
configuration left at the defaults. -/
def playerHz1 : Player.PlayerState :=
  { Player.mk_player "p" "p" with sample_hz := 1 }

/-- C4 trace: samples at t = 0.1, 0.25, 0.35 (all in bucket 0) followed by
one sample at t = 1 (bucket 1), all in round 1. -/
def c4Final : Player.PlayerState :=
  Player.record_position
    (Player.record_position
      (Player.record_position
        (Player.record_position playerHz1 1 (1/10) (1/10) 0 (some 5)
          none none none)
        1 (25/100) (25/100) 0 (some 5) none none none)
      1 (35/100) (35/100) 0 (some 5) none none none)
    1 1 1 0 (some 5) none none none

/-- C2 witness side table: game `g1`, round 2, team `t1` → side
`"attack"`. -/
def sdC2 : SideData :=
  { seriesId := none
    games := [("g1",
      { map := some "mapa"
        rounds := [("2",
          { occurredAt := none
            teams := [{ id := some "t1", name := none
                        side := some "attack" }]
            winner := none })] })] }

/-- C2 witness state: player bound to team `t1`, 2nd round of game `g1`,
side already resolved to `"attack"`. -/
def stC2attack : MapStateD :=
  { map_obj := none
    player_all := Player.mk_player "p1" "p1"
    player_attack := Player.mk_player "p1" "p1"
    player_defense := Player.mk_player "p1" "p1"
    round_id := 2, round_in_game := 2, round_start := some 0
    player_team_id := some "t1", game_id := some "g1"
    current_side := some "attack", game_agents := [] }

/-- C2 witness state with an unresolved (null) side. -/
def stC2none : MapStateD :=
  { stC2attack with current_side := none }

/-- C2 witness event: a non-round-start event carrying a position snapshot
for `p1`. -/
def evC2snap : PEvent :=
  { emptyEvent with
    type := some "grid-sampled-feed", occurredAt := some 1
    seriesState := some (mkOneTeamState "g1" "MapA" "t1"
      [mkSimplePlayer "p1" 100 200]) }

/-- C2 witness event: a round-start event for the player's 2nd round of
game `g1`. -/
def evC2rs : PEvent :=
  { emptyEvent with
    type := some "round-started", occurredAt := some 1
    seriesState := some (mkOneTeamState "g1" "MapA" "t1"
      [mkSimplePlayer "p1" 100 200]) }

/-- C2 witness state before the round-start of the 2nd round. -/
def stC2pre : MapStateD :=
  { stC2attack with round_id := 1, round_in_game := 1
                    current_side := none }

/-- C8 witness event: a snapshot for `p1` at exactly the invalid sentinel
`(-1000.0022, 0)`. -/
def evC8junk : PEvent :=
  { emptyEvent with
    type := some "grid-sampled-feed", occurredAt := some 1
    seriesState := some (mkOneTeamState "g1" "MapA" "t1"
      [mkSimplePlayer "p1" (-10000022/10000) 0]) }

/-- C8 witness state: mid-round, attacking side. -/
def stC8 : MapStateD := stC2attack

/-- The snapshot the locator extracts from `evC8junk` (defined through
`getD` so that it needs no existence proof). -/
def snapC8 : Snapshot :=
  (find_player_snapshot evC8junk "p1").getD
    { gx := 0, gy := 0, net_worth := none, loadout_value := none
      has_spike := false }

/-- C9 witness archive containing a `.jsonl` member (after a non-matching
member). -/
def zipGood : ZipArchive :=
  { path := "series.zip"
    members := [("end_state.json", []),
                ("events_1_grid.jsonl",
                 [{ seriesId := some "1", occurredAt := none
                    events := [] }])] }

/-- C9 witness archive with no `.jsonl` member. -/
def zipBad : ZipArchive :=
  { path := "series.zip"
    members := [("end_state.json", []), ("notes.txt", [])] }

/-- C6 witness game: one team, one `"round"` outcome segment with sequence
number 1 whose team is flagged as winner. -/
def gC6 : PGame :=
  { id := some "g1", map_name := some "mapa", started := true
    finished := false
    teams := [{ id := some "t1", name := some "Team One"
                side := some "attacker", won := none, players := [] }]
    segments := [{ type := some "round", sequenceNumber := some 1
                   teams := [{ id := some "t1", name := some "Team One"
                               side := some "attacker", won := some true
                               players := [] }] }] }

/-- C6 witness event: a round-start carrying `gC6`. -/
def evC6 : PEvent :=
  { emptyEvent with
    type := some "round-started", occurredAt := some 0
    seriesState := some { games := [gC6] } }

/-- C6 witness: the resolver's initial state. -/
def stC6 : ParseState :=
  { rounds_by_game := fun _ => 0
    output := { seriesId := none, games := [] } }

/-- The snapshot the locator extracts from `evC2snap` (via `getD`, so no
existence proof is needed). -/
def snapC2 : Snapshot :=
  (find_player_snapshot evC2snap "p1").getD
    { gx := 0, gy := 0, net_worth := none, loadout_value := none
      has_spike := false }

/-- The list of round keys (`str(round_number)`) recorded for a game in
the resolver output, in insertion order (empty when the game has no
entry). -/
def roundKeys (sd : SideData) (gid : String) : List String :=
  match alistGet? sd.games gid with
  | some ge => ge.rounds.map Prod.fst
  | none => []

/-- The density invariant of the resolver table: a game's recorded round
keys are exactly `"1" … "K"` where `K` is its round counter. -/
def roundsInv (st : ParseState) (gid : String) : Prop :=
  roundKeys st.output gid =
    (List.range (st.rounds_by_game gid)).map (fun i => Nat.repr (i + 1))

/-! ## Infrastructure lemmas -/

theorem find?_map_set_self {α : Type} (l : List (String × α)) (k : String)
    (v : α) (h : l.any (fun p => p.1 == k) = true) :
    (l.map (fun p => if p.1 == k then (k, v) else p)).find?
      (fun p => p.1 == k) = some (k, v) := by
  induction l with
  | nil => simp at h
  | cons a tl ih =>
    by_cases ha : a.1 = k
    · rw [List.map_cons, if_pos (beq_iff_eq.mpr ha), List.find?]
      simp
    · have htl : tl.any (fun p => p.1 == k) = true := by
        rcases List.any_eq_true.mp h with ⟨x, hx, hxk⟩
        rcases List.mem_cons.mp hx with rfl | hx'
        · exact absurd (beq_iff_eq.mp hxk) ha
        · exact List.any_eq_true.mpr ⟨x, hx', hxk⟩
      have hfa : (a.1 == k) = false := beq_eq_false_iff_ne.mpr ha
      rw [List.map_cons, if_neg (fun hc => ha (beq_iff_eq.mp hc)),
        List.find?, hfa]
      exact ih htl

theorem find?_map_set_ne {α : Type} (l : List (String × α)) (k k' : String)
    (v : α) (h : k' ≠ k) :
    (l.map (fun p => if p.1 == k then (k, v) else p)).find?
      (fun p => p.1 == k') = l.find? (fun p => p.1 == k') := by
  induction l with
  | nil => rfl
  | cons a tl ih =>
    by_cases ha : a.1 = k
    · have h1 : ((k : String) == k') = false :=
        beq_eq_false_iff_ne.mpr (fun hk => h hk.symm)
      have h2 : (a.1 == k') = false :=
        beq_eq_false_iff_ne.mpr (fun hk => h (ha ▸ hk : k = k').symm)
      rw [List.map_cons, if_pos (beq_iff_eq.mpr ha), List.find?, h1,
        List.find?, h2]
      exact ih
    · have hfa : (a.1 == k) = false := beq_eq_false_iff_ne.mpr ha
      rw [List.map_cons, if_neg (fun hc => ha (beq_iff_eq.mp hc)),
        List.find?, List.find?]
      cases ha' : (a.1 == k') with
      | true => rfl
      | false => exact ih

theorem alistGet?_alistSet_self {α : Type} (l : List (String × α))
    (k : String) (v : α) : alistGet? (alistSet l k v) k = some v := by
  unfold alistGet? alistSet
  by_cases h : l.any (fun p => p.1 == k)
  · rw [if_pos h, find?_map_set_self l k v h]
    rfl
  · have hnone : l.find? (fun p => p.1 == k) = none := by
      rw [List.find?_eq_none]
      intro x hx hxk
      exact h (List.any_eq_true.mpr ⟨x, hx, hxk⟩)
    rw [if_neg h, List.find?_append, hnone, List.find?]
    simp

theorem alistGet?_alistSet_other {α : Type} (l : List (String × α))
    (k k' : String) (v : α) (h : k' ≠ k) :
    alistGet? (alistSet l k v) k' = alistGet? l k' := by
  unfold alistGet? alistSet
  by_cases hany : l.any (fun p => p.1 == k)
  · rw [if_pos hany, find?_map_set_ne l k k' v h]
  · have h1 : ((k : String) == k') = false :=
      beq_eq_false_iff_ne.mpr (fun hk => h hk.symm)
    rw [if_neg hany, List.find?_append, List.find?, h1, List.find?,
      Option.or_none]

theorem toDigitsCore_digits (f n : ℕ) (acc : List Char) (h1 : 1 ≤ n)
    (h2 : n < f) :
    Nat.toDigitsCore 10 f n acc =
      ((Nat.digits 10 n).map Nat.digitChar).reverse ++ acc := by
  induction f generalizing n acc with
  | zero => omega
  | succ f ih =>
    rw [Nat.toDigitsCore]
    by_cases hdiv : n / 10 = 0
    · have hlt : n < 10 := by omega
      rw [if_pos hdiv, Nat.digits_def' (by norm_num : (1:ℕ) < 10) h1, hdiv]
      simp
    · have h1' : 1 ≤ n / 10 := Nat.one_le_iff_ne_zero.mpr hdiv
      have h2' : n / 10 < f := by
        have := Nat.div_lt_self (by omega : 0 < n) (by norm_num : 1 < 10)
        omega
      rw [if_neg hdiv, ih (n / 10) _ h1' h2',
        Nat.digits_def' (by norm_num : (1:ℕ) < 10) h1]
      simp

theorem nat_repr_eq_digits (n : ℕ) (h : 1 ≤ n) :
    Nat.repr n = (((Nat.digits 10 n).map Nat.digitChar).reverse).asString := by
  rw [Nat.repr, Nat.toDigits,
    toDigitsCore_digits (n + 1) n [] h (Nat.lt_succ_self n)]
  simp

theorem digitChar_inj_lt : ∀ a < 10, ∀ b < 10,
    Nat.digitChar a = Nat.digitChar b → a = b := by decide

theorem map_digitChar_inj : ∀ (l1 l2 : List ℕ), (∀ x ∈ l1, x < 10) →
    (∀ x ∈ l2, x < 10) →
    l1.map Nat.digitChar = l2.map Nat.digitChar → l1 = l2 := by
  intro l1
  induction l1 with
  | nil =>
    intro l2 _ _ h
    cases l2 with
    | nil => rfl
    | cons b tl2 => simp at h
  | cons a tl1 ih =>
    intro l2 h1 h2 h
    cases l2 with
    | nil => simp at h
    | cons b tl2 =>
      simp only [List.map_cons, List.cons.injEq] at h
      have ha : a = b := digitChar_inj_lt a (h1 a (by simp)) b
        (h2 b (by simp)) h.1
      have := ih tl2 (fun x hx => h1 x (by simp [hx]))
        (fun x hx => h2 x (by simp [hx])) h.2
      rw [ha, this]

theorem asString_inj (l1 l2 : List Char) (h : l1.asString = l2.asString) :
    l1 = l2 := by
  have := congrArg String.data h
  simpa [List.asString] using this

theorem nat_repr_injective : Function.Injective Nat.repr := by
  intro m n h
  rcases Nat.eq_zero_or_pos m with rfl | hm
  · rcases Nat.eq_zero_or_pos n with rfl | hn
    · rfl
    · exfalso
      rw [nat_repr_eq_digits n hn] at h
      have hdata := asString_inj _ _ (by
        simpa [Nat.repr, Nat.toDigits, Nat.toDigitsCore] using h)
      have : Nat.digits 10 n = [0] := by
        have hrev := congrArg List.reverse hdata
        simp at hrev
        exact map_digitChar_inj _ [0]
          (fun x hx => Nat.digits_lt_base (by norm_num) hx)
          (by intro x hx; simp at hx; omega) (by simpa using hrev.symm)
      have hzero : n = 0 := by
        rw [← Nat.ofDigits_digits 10 n, ‹Nat.digits 10 n = [0]›]
        simp [Nat.ofDigits]
      omega
  · rcases Nat.eq_zero_or_pos n with rfl | hn
    · exfalso
      rw [nat_repr_eq_digits m hm] at h
      have hdata := asString_inj _ _ (by
        simpa [Nat.repr, Nat.toDigits, Nat.toDigitsCore] using h)
      have : Nat.digits 10 m = [0] := by
        have hrev := congrArg List.reverse hdata
        simp at hrev
        exact map_digitChar_inj _ [0]
          (fun x hx => Nat.digits_lt_base (by norm_num) hx)
          (by intro x hx; simp at hx; omega) (by simpa using hrev)
      have hzero : m = 0 := by
        rw [← Nat.ofDigits_digits 10 m, ‹Nat.digits 10 m = [0]›]
        simp [Nat.ofDigits]
      omega
    · rw [nat_repr_eq_digits m hm, nat_repr_eq_digits n hn] at h
      have hdata := asString_inj _ _ h
      have hrev := congrArg List.reverse hdata
      simp only [List.reverse_reverse] at hrev
      have hdig := map_digitChar_inj _ _
        (fun x hx => Nat.digits_lt_base (by norm_num) hx)
        (fun x hx => Nat.digits_lt_base (by norm_num) hx) hrev
      have hm' := Nat.ofDigits_digits 10 m
      have hn' := Nat.ofDigits_digits 10 n
      rw [← hm', ← hn', hdig]

/-! ## Claim theorems -/

/-- C3 counterexample: with map `MapA` current and no game-end signal, a
round-start event whose payload reports map `MapB` is nevertheless filtered
and attributed under active map `"mapb"` (its round counter is bumped and a
sample recorded there), even though the tracked current map stays `MapA` —
refuting "the newly detected map name never becomes the active map". -/
theorem C3_counterexample :
    (runC3.map_states "mapb").map MapStateD.round_id = some 1 ∧
    runC3.current_map_name = some "MapA" ∧
    (runC3.map_states "mapa").map MapStateD.round_id = some 1 := by
  refine ⟨?_, ?_, ?_⟩ <;> with_unfolding_all decide

/-- C3 (amended): at an event whose detected map name differs from the
tracked current map, with no end-of-game event since the current map was
set, the tracked `current_map` (and the cleared latch) are left unchanged —
but the *active* map used to filter and attribute that very event is the
freshly detected name, not the tracked current map. -/
theorem C3_map_switch_guard (detected current : Option String)
    (ended : Bool) (h1 : current ≠ none) (h2 : ended = false)
    (h3 : optStr detected ≠ "") :
    update_current_map detected current ended = (current, ended) ∧
    select_active_map detected current = detected := by
  constructor
  · unfold update_current_map
    rw [if_neg]
    rintro ⟨-, hc | ⟨hg, -⟩⟩
    · exact h1 hc
    · rw [h2] at hg
      exact Bool.false_ne_true hg
  · unfold select_active_map
    rw [if_pos h3]

/-- C3 witness: the guard applied at detected `"MapB"`, current `"MapA"`,
latch clear. -/
theorem C3_map_switch_guard_witness :
    update_current_map (some "MapB") (some "MapA") false =
      (some "MapA", false) ∧
    select_active_map (some "MapB") (some "MapA") = some "MapB" :=
  C3_map_switch_guard (some "MapB") (some "MapA") false (by decide)
    rfl (by decide)

/-- C8: a snapshot at exactly `(-1000.0022, 0)`, with coordinate magnitude
beyond the fixed `20000` bound, or matching the sentinel pair within the
`1e-3` tolerance, is rejected before any forwarding: processing the event
performs only the round-start bookkeeping and leaves every trajectory
bucket exactly as it was, regardless of round, side or time context. -/
theorem C8_outlier_rejection (event : PEvent) (state : MapStateD)
    (player_key : String) (seconds_limit event_time : ℚ)
    (side_data : SideData) (snap : Snapshot)
    (h_t : event.occurredAt = some event_time)
    (h_snap : find_player_snapshot event player_key = some snap)
    (h_bad : (snap.gx = -10000022 / 10000 ∧ snap.gy = 0) ∨
      |snap.gx| > 20000 ∨ |snap.gy| > 20000 ∨
      (|snap.gx + 10000022 / 10000| < 1 / 1000 ∧ |snap.gy| < 1 / 1000)) :
    process_event_for_player event state player_key seconds_limit
        side_data =
      round_start_update event event_time state player_key side_data := by
  have h_junk : is_junk_position snap.gx snap.gy = true := by
    unfold is_junk_position
    rw [decide_eq_true_eq]
    rcases h_bad with ⟨hx, hy⟩ | h | h | h
    · refine Or.inr ⟨?_, ?_⟩
      · rw [hx]; norm_num
      · rw [hy]; norm_num
    · exact Or.inl (Or.inl h)
    · exact Or.inl (Or.inr h)
    · exact Or.inr h
  have key : ∀ s' : MapStateD,
      record_phase event event_time s' player_key seconds_limit = s' := by
    intro s'
    unfold record_phase
    cases hrs : s'.round_start with
    | none => rfl
    | some rs =>
      dsimp only
      by_cases hel : event_time - rs < 0
      · rw [if_pos hel]
      · rw [if_neg hel, h_snap]
        dsimp only
        simp [h_junk]
  unfold process_event_for_player
  rw [h_t]
  exact key _

/-- C8 witness: the sentinel snapshot `(-1000.0022, 0)` for `p1`, mid-round
on the attacking side, changes nothing beyond the (here trivial) round-start
bookkeeping. -/
theorem C8_outlier_rejection_witness :
    process_event_for_player evC8junk stC8 "p1" 5 sdC2 =
      round_start_update evC8junk 1 stC8 "p1" sdC2 := by
  have h_snap : find_player_snapshot evC8junk "p1" = some snapC8 := by
    have h1 : (find_player_snapshot evC8junk "p1").isSome = true := by
      with_unfolding_all decide
    unfold snapC8
    cases hf : find_player_snapshot evC8junk "p1" with
    | none => rw [hf] at h1; simp at h1
    | some s => rfl
  exact C8_outlier_rejection evC8junk stC8 "p1" 5 1 sdC2 snapC8 rfl h_snap
    (Or.inr (Or.inr (Or.inr ⟨by with_unfolding_all decide,
      by with_unfolding_all decide⟩)))

/-- C9: reading a `.zip` input errors (with the not-found error) iff the
archive has no member whose name ends in `.jsonl`; otherwise the records of
the first matching member are streamed and no error is raised. -/
theorem C9_zip_reader (archive : ZipArchive) :
    ((∃ msg, iter_jsonl_records_zip archive = Except.error msg) ↔
      ∀ m ∈ archive.members, pyEndsWith m.1 ".jsonl" = false) ∧
    (∀ m, archive.members.find? (fun m => pyEndsWith m.1 ".jsonl") = some m →
      iter_jsonl_records_zip archive = Except.ok m.2) := by
  constructor
  · constructor
    · rintro ⟨msg, hmsg⟩
      unfold iter_jsonl_records_zip at hmsg
      cases hf : archive.members.find?
          (fun m => pyEndsWith m.1 ".jsonl") with
      | none =>
        intro m hm
        have := List.find?_eq_none.mp hf m hm
        simpa using this
      | some m =>
        rw [hf] at hmsg
        simp at hmsg
    · intro hall
      refine ⟨"No .jsonl file found inside " ++ archive.path, ?_⟩
      unfold iter_jsonl_records_zip
      have hf : archive.members.find?
          (fun m => pyEndsWith m.1 ".jsonl") = none := by
        rw [List.find?_eq_none]
        intro x hx
        simp [hall x hx]
      rw [hf]
  · intro m hm
    unfold iter_jsonl_records_zip
    rw [hm]

/-- C9 witness: an archive whose second member is `events_1_grid.jsonl`
streams that member's records; an archive with no `.jsonl` member errors. -/
theorem C9_zip_reader_witness :
    iter_jsonl_records_zip zipGood =
      Except.ok [{ seriesId := some "1", occurredAt := none
                   events := [] }] ∧
    (∃ msg, iter_jsonl_records_zip zipBad = Except.error msg) :=
  ⟨(C9_zip_reader zipGood).2
      ("events_1_grid.jsonl",
        [{ seriesId := some "1", occurredAt := none, events := [] }])
      (by decide),
    (C9_zip_reader zipBad).1.mpr (by decide)⟩

/-- C1 (code bug): `_ensure_map_state` keys the tracking state by map name
only, so both tracked players share one state per map; a single round-start
event sighting both players bumps the shared global round counter once per
player — to 2, not 1 — and likewise the per-game counter, and the two
players' samples land in different "rounds" of the same shared `Player`
objects (created under the first player's name). -/
theorem C1_shared_state_eval :
    (runC1.map_states "mapa").map MapStateD.round_id = some 2 ∧
    (runC1.map_states "mapa").map MapStateD.round_in_game = some 2 ∧
    (runC1.map_states "mapa").map
      (fun s => s.player_all.name) = some "p1" ∧
    (runC1.map_states "mapa").map
      (fun s => (s.player_all.paths 1).map List.length) =
        some (some 1) ∧
    (runC1.map_states "mapa").map
      (fun s => (s.player_all.paths 2).map List.length) =
        some (some 1) := by
  refine ⟨?_, ?_, ?_, ?_, ?_⟩ <;> with_unfolding_all decide

/-- C4 (code bug): with downsampling at 1 Hz, raw samples at t = 0.1, 0.25,
0.35 (bucket 0) and t = 1 (bucket 1): the buffer ends as the *first* raw
sample of each bucket — `[t=0.1, t=1]` — not the median of the just-closed
bucket 0 (which would be t = 0.25); the emission at t = 1 synthesizes the
representative from the newly started bucket (a single sample), discarding
bucket 0's accumulated samples.  The median helper itself does behave as
the claim's example states: `_representative_position` on t = [1,2,3],
gx = [0,10,20] yields gx = 10. -/
theorem C4_downsample_eval :
    (c4Final.paths 1).map (fun l => l.map Player.Position.t) =
      some [1/10, 1] ∧
    (Player.representative_position playerHz1 [(1, 0, 0), (2, 10, 0),
      (3, 20, 0)] none none none).gx = 10 := by
  refine ⟨?_, ?_⟩ <;> with_unfolding_all decide

/-- Helper for C10: `record_position` never touches another round's
buffer (every write — lazy creation, trim write-back, append — is keyed by
the call's `round_id`). -/
theorem record_position_paths_other (p : Player.PlayerState)
    (round_id : ℤ) (t gx gy : ℚ) (max_time : Option ℚ)
    (net_worth loadout_value : Option ℚ) (has_spike : Option Bool)
    (r : ℤ) (h : r ≠ round_id) :
    (Player.record_position p round_id t gx gy max_time net_worth
      loadout_value has_spike).paths r = p.paths r := by
  have hset : ∀ (q : Player.PlayerState) (path : List Player.Position),
      (Player.set_path q round_id path).paths r = q.paths r := by
    intro q path
    simp [Player.set_path, h]
  have happ : ∀ (q : Player.PlayerState) (path : List Player.Position)
      (pos : Player.Position),
      (Player.append_position q round_id path pos).paths r = q.paths r := by
    intro q path pos
    simp [Player.append_position, Player.set_path, h]
  have hds : ∀ (q : Player.PlayerState) (path : List Player.Position),
      (Player.record_downsampled q round_id t path net_worth loadout_value
        has_spike gx gy).paths r = q.paths r := by
    intro q path
    unfold Player.record_downsampled
    dsimp only
    split_ifs <;>
      simp [Player.append_position, Player.set_path, h]
  unfold Player.record_position
  by_cases ha : (!p.alive) = true
  · rw [if_pos ha]
  · rw [if_neg ha]
    dsimp only
    split_ifs <;> simp [happ, hset, hds, Player.start_round, h]

/-- C10: calling `record_position` for a round that `start_round` never
created (while alive) is handled, not dropped: the round buffer is created
lazily exactly as `start_round` would create it, the sample is then
processed identically, and no other round's buffer changes. -/
theorem C10_lazy_round_creation (p : Player.PlayerState) (round_id : ℤ)
    (t gx gy : ℚ) (max_time : Option ℚ) (net_worth loadout_value : Option ℚ)
    (has_spike : Option Bool)
    (h_alive : p.alive = true) (h_missing : p.paths round_id = none) :
    Player.record_position p round_id t gx gy max_time net_worth
        loadout_value has_spike =
      Player.record_position (Player.start_round p round_id) round_id t gx
        gy max_time net_worth loadout_value has_spike ∧
    (Player.start_round p round_id).paths round_id = some [] ∧
    ∀ r, r ≠ round_id →
      (Player.record_position p round_id t gx gy max_time net_worth
        loadout_value has_spike).paths r = p.paths r := by
  refine ⟨?_, by simp [Player.start_round], fun r hr =>
    record_position_paths_other p round_id t gx gy max_time net_worth
      loadout_value has_spike r hr⟩
  conv_lhs => rw [Player.record_position]
  conv_rhs => rw [Player.record_position]
  simp only [h_alive, h_missing, Player.start_round, Bool.not_true,
    Option.isNone_none, Option.isNone_some, if_true, if_false,
    Bool.false_eq_true, ite_true, ite_false, if_pos rfl]

/-- C10 witness: a fresh default `Player`, round 7 never started; the call
at round 7 equals start-then-record and round 3's (absent) buffer is
untouched. -/
theorem C10_lazy_round_creation_witness :
    Player.record_position (Player.mk_player "w" "w") 7 1 2 3 (some 5)
        none none none =
      Player.record_position
        (Player.start_round (Player.mk_player "w" "w") 7) 7 1 2 3 (some 5)
        none none none ∧
    (Player.start_round (Player.mk_player "w" "w") 7).paths 7 = some [] ∧
    (Player.record_position (Player.mk_player "w" "w") 7 1 2 3 (some 5)
      none none none).paths 3 = (Player.mk_player "w" "w").paths 3 :=
  ⟨(C10_lazy_round_creation (Player.mk_player "w" "w") 7 1 2 3 (some 5)
      none none none rfl rfl).1,
   (C10_lazy_round_creation (Player.mk_player "w" "w") 7 1 2 3 (some 5)
      none none none rfl rfl).2.1,
   (C10_lazy_round_creation (Player.mk_player "w" "w") 7 1 2 3 (some 5)
      none none none rfl rfl).2.2 3 (by decide)⟩

/-- C6: (1) a resolved winner is exactly a team flagged `won == True`
inside some segment of type `"round"` whose sequence number equals the
round counter; (2) the winner is `null` iff no such segment/team exists;
(3) on a round-start resolving to game `g`, the round entry is recorded
regardless, with `winner = _find_round_winner g n` (possibly `null`) —
no error is possible. -/
theorem C6_winner_resolution (g : PGame) (n : ℤ) (st : ParseState)
    (e : PEvent) :
    (∀ w, find_round_winner g n = some w →
      ∃ seg ∈ g.segments, seg.type = some "round" ∧
        seg.sequenceNumber = some n ∧
        ∃ tm ∈ seg.teams, tm.won = some true ∧
          w = { id := tm.id, name := tm.name, side := tm.side }) ∧
    (find_round_winner g n = none ↔
      ∀ seg ∈ g.segments, seg.type = some "round" →
        seg.sequenceNumber = some n →
        ∀ tm ∈ seg.teams, tm.won ≠ some true) ∧
    (is_round_start e.type = true → select_game e = some g →
      pyStr g.id ≠ "" →
      ∃ ge, alistGet? (parse_round_event st e).output.games
          (pyStr g.id) = some ge ∧
        alistGet? ge.rounds
            (Nat.repr (st.rounds_by_game (pyStr g.id) + 1)) =
          some { occurredAt := e.occurredAt
                 teams := extract_team_sides g
                 winner := find_round_winner g
                   ((st.rounds_by_game (pyStr g.id) + 1 : ℕ) : ℤ) }) := by
  refine ⟨?_, ?_, ?_⟩
  · intro w hw
    unfold find_round_winner at hw
    obtain ⟨seg, hmem, hseg⟩ := List.exists_of_findSome?_eq_some hw
    by_cases h1 : seg.type ≠ some "round"
    · rw [if_pos h1] at hseg
      exact absurd hseg (by simp)
    · rw [if_neg h1] at hseg
      by_cases h2 : seg.sequenceNumber ≠ some n
      · rw [if_pos h2] at hseg
        exact absurd hseg (by simp)
      · rw [if_neg h2] at hseg
        obtain ⟨tm, htm, htw⟩ := List.exists_of_findSome?_eq_some hseg
        by_cases h3 : tm.won = some true
        · rw [if_pos h3] at htw
          refine ⟨seg, hmem, not_not.mp h1, not_not.mp h2, tm, htm, h3, ?_⟩
          simpa using htw.symm
        · rw [if_neg h3] at htw
          exact absurd htw (by simp)
  · unfold find_round_winner
    rw [List.findSome?_eq_none_iff]
    constructor
    · intro hall seg hmem htype hseq tm htm hwon
      have := hall seg hmem
      rw [if_neg (by simp [htype]), if_neg (by simp [hseq]),
        List.findSome?_eq_none_iff] at this
      have := this tm htm
      rw [if_pos hwon] at this
      simp at this
    · intro hall seg hmem
      by_cases h1 : seg.type ≠ some "round"
      · rw [if_pos h1]
      · rw [if_neg h1]
        by_cases h2 : seg.sequenceNumber ≠ some n
        · rw [if_pos h2]
        · rw [if_neg h2]
          rw [List.findSome?_eq_none_iff]
          intro tm htm
          rw [if_neg (hall seg hmem (not_not.mp h1) (not_not.mp h2)
            tm htm)]
  · intro h_rs h_sel h_id
    unfold parse_round_event
    rw [if_neg (by simp [h_rs]), h_sel]
    dsimp only
    rw [if_neg h_id]
    exact ⟨_, alistGet?_alistSet_self _ _ _,
      alistGet?_alistSet_self _ _ _⟩


/-- C6 witness: one round-start resolving to `gC6` records round `"1"` with
the winner resolved from the matching `"round"` segment. -/
theorem C6_winner_resolution_witness :
    ∃ ge, alistGet? (parse_round_event stC6 evC6).output.games
        (pyStr gC6.id) = some ge ∧
      alistGet? ge.rounds
          (Nat.repr (stC6.rounds_by_game (pyStr gC6.id) + 1)) =
        some { occurredAt := evC6.occurredAt
               teams := extract_team_sides gC6
               winner := find_round_winner gC6
                 ((stC6.rounds_by_game (pyStr gC6.id) + 1 : ℕ) : ℤ) } :=
  (C6_winner_resolution gC6 1 stC6 evC6).2.2 (by decide)
    (by with_unfolding_all decide) (by decide)

/-- Helper for C2: the recording phase never touches the round/side/team
context fields (it only updates the three `Player` buckets). -/
theorem record_phase_context (e : PEvent) (t : ℚ) (s : MapStateD)
    (pk : String) (sl : ℚ) :
    (record_phase e t s pk sl).current_side = s.current_side ∧
    (record_phase e t s pk sl).game_id = s.game_id ∧
    (record_phase e t s pk sl).round_in_game = s.round_in_game ∧
    (record_phase e t s pk sl).player_team_id = s.player_team_id := by
  unfold record_phase
  cases s.round_start with
  | none => exact ⟨rfl, rfl, rfl, rfl⟩
  | some rs =>
    dsimp only
    cases find_player_snapshot e pk with
    | none => split_ifs <;> exact ⟨rfl, rfl, rfl, rfl⟩
    | some snap =>
      dsimp only
      split_ifs <;> exact ⟨rfl, rfl, rfl, rfl⟩

/-- Helper for C2: after the round-start block, the current side is exactly
the table lookup at the (new) game id, per-game round number and team id. -/
theorem round_start_update_side (e : PEvent) (t : ℚ) (s : MapStateD)
    (pk : String) (sd : SideData) (h : is_round_start e.type = true) :
    (round_start_update e t s pk sd).current_side =
      lookup_player_side sd (round_start_update e t s pk sd).game_id
        (round_start_update e t s pk sd).round_in_game
        (round_start_update e t s pk sd).player_team_id := by
  unfold round_start_update
  rw [if_pos h]

/-- C2: (1) at a round-start, the current side is re-resolved as exactly
the Round/Side-table lookup at (game id, per-game round number, team id) —
in particular `"attack"` when the table maps the player's coordinates to
`"attack"`, and unknown (`none`) when the lookup misses, never an error;
(2) while the side is `"attack"`, an accepted snapshot is recorded into
both the `all` and `attack` buckets and the `defense` bucket is untouched;
(3) while the side is unknown, only `all` receives the sample. -/
theorem C2_side_attribution (sd : SideData) (s : MapStateD) (e : PEvent)
    (pk : String) (sl t rs : ℚ) (snap : Snapshot) :
    (e.occurredAt = some t → is_round_start e.type = true →
      (process_event_for_player e s pk sl sd).current_side =
        lookup_player_side sd
          (process_event_for_player e s pk sl sd).game_id
          (process_event_for_player e s pk sl sd).round_in_game
          (process_event_for_player e s pk sl sd).player_team_id) ∧
    (e.occurredAt = some t → is_round_start e.type = false →
      s.round_start = some rs → ¬(t - rs < 0) →
      find_player_snapshot e pk = some snap →
      is_junk_position snap.gx snap.gy = false →
      is_outside_map s.map_obj snap.gx snap.gy = false →
      s.current_side = some "attack" →
      process_event_for_player e s pk sl sd =
        { s with
          player_all := Player.record_position s.player_all
            (s.round_id : ℤ) (t - rs) snap.gx snap.gy (some sl)
            snap.net_worth snap.loadout_value (some snap.has_spike)
          player_attack := Player.record_position s.player_attack
            (s.round_id : ℤ) (t - rs) snap.gx snap.gy (some sl)
            snap.net_worth snap.loadout_value (some snap.has_spike) }) ∧
    (e.occurredAt = some t → is_round_start e.type = false →
      s.round_start = some rs → ¬(t - rs < 0) →
      find_player_snapshot e pk = some snap →
      is_junk_position snap.gx snap.gy = false →
      is_outside_map s.map_obj snap.gx snap.gy = false →
      s.current_side = none →
      process_event_for_player e s pk sl sd =
        { s with
          player_all := Player.record_position s.player_all
            (s.round_id : ℤ) (t - rs) snap.gx snap.gy (some sl)
            snap.net_worth snap.loadout_value none }) := by
  refine ⟨?_, ?_, ?_⟩
  · intro h_t h_rs
    unfold process_event_for_player
    rw [h_t]
    dsimp only
    obtain ⟨h1, h2, h3, h4⟩ := record_phase_context e t
      (round_start_update e t s pk sd) pk sl
    rw [h1, h2, h3, h4]
    exact round_start_update_side e t s pk sd h_rs
  · intro h_t h_nrs h_rstart h_el h_snap h_junk h_out h_side
    unfold process_event_for_player
    rw [h_t]
    have hru : round_start_update e t s pk sd = s := by
      unfold round_start_update
      rw [if_neg (by simp [h_nrs])]
    dsimp only
    rw [hru]
    unfold record_phase
    rw [h_rstart]
    dsimp only
    rw [if_neg h_el, h_snap]
    dsimp only
    rw [h_junk, h_out, h_side]
    have hcond : ((optStr (some "attack")).toLower = "attacker" ∨
        (optStr (some "attack")).toLower = "attack" ∨
        (optStr (some "attack")).toLower = "attacking") := by
      with_unfolding_all decide
    simp only [Bool.false_eq_true, if_false, if_pos hcond]
  · intro h_t h_nrs h_rstart h_el h_snap h_junk h_out h_side
    unfold process_event_for_player
    rw [h_t]
    have hru : round_start_update e t s pk sd = s := by
      unfold round_start_update
      rw [if_neg (by simp [h_nrs])]
    dsimp only
    rw [hru]
    unfold record_phase
    rw [h_rstart]
    dsimp only
    rw [if_neg h_el, h_snap]
    dsimp only
    rw [h_junk, h_out, h_side]
    have hcond1 : ¬((optStr (none : Option String)).toLower = "attacker" ∨
        (optStr (none : Option String)).toLower = "attack" ∨
        (optStr (none : Option String)).toLower = "attacking") := by
      with_unfolding_all decide
    have hcond2 : ¬((optStr (none : Option String)).toLower = "defender" ∨
        (optStr (none : Option String)).toLower = "defense" ∨
        (optStr (none : Option String)).toLower = "defending") := by
      with_unfolding_all decide
    simp only [Bool.false_eq_true, if_false, if_neg hcond1, if_neg hcond2]


/-- C2 witness: the table `sdC2` maps (g1, round 2, t1) to `"attack"`; at
the round-start the side is re-resolved through the lookup, an in-round
snapshot while attacking goes to `all` and `attack` (not `defense`), and
with an unknown side only `all` receives it. -/
theorem C2_side_attribution_witness :
    ((process_event_for_player evC2rs stC2pre "p1" 5 sdC2).current_side =
      lookup_player_side sdC2
        (process_event_for_player evC2rs stC2pre "p1" 5 sdC2).game_id
        (process_event_for_player evC2rs stC2pre "p1" 5 sdC2).round_in_game
        (process_event_for_player evC2rs stC2pre "p1" 5
          sdC2).player_team_id) ∧
    (process_event_for_player evC2snap stC2attack "p1" 5 sdC2 =
      { stC2attack with
        player_all := Player.record_position stC2attack.player_all
          (stC2attack.round_id : ℤ) (1 - 0) snapC2.gx snapC2.gy (some 5)
          snapC2.net_worth snapC2.loadout_value (some snapC2.has_spike)
        player_attack := Player.record_position stC2attack.player_attack
          (stC2attack.round_id : ℤ) (1 - 0) snapC2.gx snapC2.gy (some 5)
          snapC2.net_worth snapC2.loadout_value
          (some snapC2.has_spike) }) ∧
    (process_event_for_player evC2snap stC2none "p1" 5 sdC2 =
      { stC2none with
        player_all := Player.record_position stC2none.player_all
          (stC2none.round_id : ℤ) (1 - 0) snapC2.gx snapC2.gy (some 5)
          snapC2.net_worth snapC2.loadout_value none }) := by
  have h_snap : find_player_snapshot evC2snap "p1" = some snapC2 := by
    have h1 : (find_player_snapshot evC2snap "p1").isSome = true := by
      with_unfolding_all decide
    unfold snapC2
    cases hf : find_player_snapshot evC2snap "p1" with
    | none => rw [hf] at h1; simp at h1
    | some sn => rfl
  refine ⟨?_, ?_, ?_⟩
  · exact (C2_side_attribution sdC2 stC2pre evC2rs "p1" 5 1 0 snapC2).1
      rfl (by decide)
  · exact (C2_side_attribution sdC2 stC2attack evC2snap "p1" 5 1 0
      snapC2).2.1 rfl (by decide) rfl (by with_unfolding_all decide)
      h_snap (by with_unfolding_all decide) rfl rfl
  · exact (C2_side_attribution sdC2 stC2none evC2snap "p1" 5 1 0
      snapC2).2.2 rfl (by decide) rfl (by with_unfolding_all decide)
      h_snap (by with_unfolding_all decide) rfl rfl

/-- Helper for C7: on a time-sorted buffer, every sample surviving the trim
is within `m` of the incoming sample time `t`. -/
theorem trim_time_window_bound (path : List Player.Position) (t m : ℚ)
    (hs : path.Pairwise (fun a b => a.t ≤ b.t)) :
    ∀ q ∈ Player.trim_time_window path t (some m), t - q.t ≤ m := by
  induction path with
  | nil => intro q hq; simp [Player.trim_time_window] at hq
  | cons a tl ih =>
    intro q hq
    obtain ⟨ha, htl⟩ := List.pairwise_cons.mp hs
    unfold Player.trim_time_window at hq
    dsimp only at hq
    rw [List.dropWhile_cons] at hq
    by_cases hc : m < t - a.t
    · rw [if_pos (by simpa using hc)] at hq
      exact ih htl q hq
    · rw [if_neg (by simpa using hc)] at hq
      rcases List.mem_cons.mp hq with rfl | hq'
      · exact le_of_not_lt hc
      · have : a.t ≤ q.t := ha q hq'
        have : t - q.t ≤ t - a.t := by linarith
        linarith [le_of_not_lt hc]

/-- Helper for C7: the trimmed buffer is a sublist of the original. -/
theorem trim_time_window_sublist (path : List Player.Position) (t : ℚ)
    (m : Option ℚ) :
    (Player.trim_time_window path t m).Sublist path := by
  unfold Player.trim_time_window
  cases m with
  | none => exact List.Sublist.refl path
  | some m => exact List.dropWhile_sublist _

/-- Helper for C7: sortedness and the pairwise trailing-window property for
the (possibly capacity-trimmed) result of appending one sample at time `t`
to a trimmed buffer. -/
theorem window_append_core (path0 : List Player.Position)
    (pos : Player.Position) (m t : ℚ) (k : ℕ)
    (hsort : path0.Pairwise (fun a b => a.t ≤ b.t))
    (hmono : ∀ q ∈ path0, q.t ≤ t)
    (hbound : ∀ q ∈ path0, t - q.t ≤ m)
    (hpos : pos.t = t) (hm : 0 ≤ m) :
    ((path0 ++ [pos]).drop k).Pairwise (fun a b => a.t ≤ b.t) ∧
    ∀ q ∈ (path0 ++ [pos]).drop k, ∀ q2 ∈ (path0 ++ [pos]).drop k,
      q2.t - q.t ≤ m := by
  have hfull : (path0 ++ [pos]).Pairwise (fun a b => a.t ≤ b.t) := by
    rw [List.pairwise_append]
    refine ⟨hsort, List.pairwise_singleton _ _, ?_⟩
    intro a ha b hb
    rw [List.mem_singleton.mp hb, hpos]
    exact hmono a ha
  have hsub : ((path0 ++ [pos]).drop k).Sublist (path0 ++ [pos]) :=
    List.drop_sublist k _
  constructor
  · exact hfull.sublist hsub
  · intro q hq q2 hq2
    have hq' := hsub.subset hq
    have hq2' := hsub.subset hq2
    have hup : q2.t ≤ t := by
      rcases List.mem_append.mp hq2' with h | h
      · exact hmono q2 h
      · rw [List.mem_singleton.mp h, hpos]
    have hlow : t - q.t ≤ m := by
      rcases List.mem_append.mp hq' with h | h
      · exact hbound q h
      · rw [List.mem_singleton.mp h, hpos]
        linarith
    linarith

/-- Helper for C7: when the incoming sample opens a fresh bucket (its
accumulator was empty), `record_downsampled` either emits nothing for the
round's buffer (same bucket as last emitted — the trim is the only change)
or appends exactly one representative carrying the incoming sample's time
and coordinates. -/
theorem record_downsampled_fresh_bucket (q : Player.PlayerState)
    (round_id : ℤ) (t : ℚ) (path0 : List Player.Position)
    (net_worth loadout_value : Option ℚ) (has_spike : Option Bool)
    (gx gy : ℚ)
    (hb : q.bucket_samples (round_id, Player.bucket_index q t) = []) :
    (Player.record_downsampled q round_id t path0 net_worth loadout_value
        has_spike gx gy).paths round_id = q.paths round_id ∨
    (Player.record_downsampled q round_id t path0 net_worth loadout_value
        has_spike gx gy).paths round_id =
      some (Player.dequeAppend q.max_samples path0
        { t := t, gx := gx, gy := gy, net_worth := net_worth
          loadout_value := loadout_value, has_spike := has_spike }) := by
  unfold Player.record_downsampled
  dsimp only
  have hrep : ∀ p' : Player.PlayerState,
      Player.representative_position p' [(t, gx, gy)] net_worth
        loadout_value has_spike =
      { t := t, gx := gx, gy := gy, net_worth := net_worth
        loadout_value := loadout_value, has_spike := has_spike } := by
    intro p'
    unfold Player.representative_position
    rw [if_neg (by simp)]
    rfl
  split_ifs with h1 h2 h3 <;>
    first
      | exact Or.inl rfl
      | exact absurd rfl (by assumption)
      | (refine Or.inr ?_
         rw [hb, List.nil_append, hrep _]
         simp [Player.append_position, Player.set_path])


/-- C7: one accepted `record_position` call — raw mode, or downsampling
with the incoming sample opening a fresh bucket — first trims the front of
the round's buffer by sample time and leaves a buffer that is sorted by
time with every retained sample within `max_time` of every other (in
particular of the newest). -/
theorem C7_trailing_window (p : Player.PlayerState) (round_id : ℤ)
    (t gx gy m : ℚ) (net_worth loadout_value : Option ℚ)
    (has_spike : Option Bool) (path : List Player.Position)
    (h_m : 0 ≤ m)
    (h_alive : p.alive = true)
    (h_path : p.paths round_id = some path)
    (h_sorted : path.Pairwise (fun a b => a.t ≤ b.t))
    (h_mono : ∀ q ∈ path, q.t ≤ t)
    (h_bucket : p.bucket_samples (round_id, Player.bucket_index p t) = []) :
    ∃ path2,
      (Player.record_position p round_id t gx gy (some m) net_worth
        loadout_value has_spike).paths round_id = some path2 ∧
      path2.Pairwise (fun a b => a.t ≤ b.t) ∧
      ∀ q ∈ path2, ∀ q2 ∈ path2, q2.t - q.t ≤ m := by
  have hsub := trim_time_window_sublist path t (some m)
  have hsort0 : (Player.trim_time_window path t (some m)).Pairwise
      (fun a b => a.t ≤ b.t) := h_sorted.sublist hsub
  have hmono0 : ∀ q ∈ Player.trim_time_window path t (some m), q.t ≤ t :=
    fun q hq => h_mono q (hsub.subset hq)
  have hbound0 := trim_time_window_bound path t m h_sorted
  have hwin0 : ∀ q ∈ Player.trim_time_window path t (some m),
      ∀ q2 ∈ Player.trim_time_window path t (some m), q2.t - q.t ≤ m := by
    intro q hq q2 hq2
    have h1 := hbound0 q hq
    have h2 := hmono0 q2 hq2
    linarith
  have happend := window_append_core (Player.trim_time_window path t
      (some m))
    { t := t, gx := gx, gy := gy, net_worth := net_worth
      loadout_value := loadout_value, has_spike := has_spike } m t
    ((Player.trim_time_window path t (some m) ++
      [{ t := t, gx := gx, gy := gy, net_worth := net_worth
         loadout_value := loadout_value,
         has_spike := has_spike : Player.Position }]).length -
      p.max_samples)
    hsort0 hmono0 hbound0 rfl h_m
  unfold Player.record_position
  rw [if_neg (by simp [h_alive])]
  simp only [h_path, Option.isNone_some, Bool.false_eq_true, if_false,
    Option.getD_some]
  split_ifs with hraw
  · exact ⟨Player.dequeAppend p.max_samples
      (Player.trim_time_window path t (some m))
      { t := t, gx := gx, gy := gy, net_worth := net_worth
        loadout_value := loadout_value, has_spike := has_spike },
      by simp [Player.append_position, Player.set_path],
      happend.1, happend.2⟩
  · rcases record_downsampled_fresh_bucket
      (Player.set_path p round_id (Player.trim_time_window path t
        (some m)))
      round_id t (Player.trim_time_window path t (some m)) net_worth
      loadout_value has_spike gx gy h_bucket with hcase | hcase
    · refine ⟨Player.trim_time_window path t (some m), ?_, hsort0, hwin0⟩
      rw [hcase]
      simp [Player.set_path]
    · exact ⟨_, hcase, happend.1, happend.2⟩

/-- C7 witness: a freshly started round of a default player, recording one
sample at t = 1 with a 5-second window. -/
theorem C7_trailing_window_witness :
    ∃ path2,
      (Player.record_position
        (Player.start_round (Player.mk_player "w" "w") 1) 1 1 2 3 (some 5)
        none none none).paths 1 = some path2 ∧
      path2.Pairwise (fun a b => a.t ≤ b.t) ∧
      ∀ q ∈ path2, ∀ q2 ∈ path2, q2.t - q.t ≤ 5 :=
  C7_trailing_window (Player.start_round (Player.mk_player "w" "w") 1)
    1 1 2 3 5 none none none []
    (by with_unfolding_all decide) rfl rfl List.Pairwise.nil
    (by simp) rfl

/-- Helper for C5: one resolver step bumps exactly the resolved game's
counter (if any) by one. -/
theorem parse_round_event_counter (st : ParseState) (e : PEvent)
    (gid : String) :
    (parse_round_event st e).rounds_by_game gid =
      st.rounds_by_game gid +
        (if resolved_game_id e = some gid then 1 else 0) := by
  unfold parse_round_event resolved_game_id
  by_cases hrs : is_round_start e.type = true
  · simp only [hrs, not_true, if_false, Bool.true_eq_false,
      not_false_eq_true, ite_true, ite_false]
    cases hsel : select_game e with
    | none => simp
    | some g =>
      dsimp only
      by_cases hid : pyStr g.id = ""
      · simp [hid]
      · simp only [hid, if_false, ite_false]
        by_cases hg : gid = pyStr g.id
        · simp [hg]
        · simp only [if_neg hg]
          rw [if_neg (by simp; exact fun h => hg h.symm)]
          simp
  · simp [hrs]

/-- Helper for C5: one resolver step preserves the density invariant for
every game: a skipped event changes nothing, and a resolved round-start
appends exactly the next key `str(counter + 1)` to its game's rounds. -/
theorem parse_round_event_inv (st : ParseState) (e : PEvent)
    (h : ∀ g, roundsInv st g) :
    ∀ g, roundsInv (parse_round_event st e) g := by
  intro gid
  unfold parse_round_event
  by_cases hrs : is_round_start e.type = true
  · simp only [hrs, not_true, Bool.true_eq_false, not_false_eq_true,
      ite_true, ite_false]
    cases hsel : select_game e with
    | none => exact h gid
    | some g =>
      dsimp only
      by_cases hid : pyStr g.id = ""
      · simp only [hid, ite_true, if_pos rfl]
        exact h gid
      · simp only [hid, ite_false, if_neg hid]
        by_cases hg : gid = pyStr g.id
        · subst hg
          unfold roundsInv roundKeys
          dsimp only
          rw [alistGet?_alistSet_self]
          simp only [if_pos rfl]
          have hInv := h (pyStr g.id)
          unfold roundsInv roundKeys at hInv
          cases hge : alistGet? st.output.games (pyStr g.id) with
          | none =>
            rw [hge] at hInv
            dsimp only at hInv ⊢
            have hc : st.rounds_by_game (pyStr g.id) = 0 := by
              have h0 := hInv.symm
              rw [List.map_eq_nil_iff] at h0
              rwa [List.range_eq_nil] at h0
            simp [alistSet, hc, List.range_succ]
          | some ge0 =>
            rw [hge] at hInv
            dsimp only at hInv ⊢
            have hfresh : (ge0.rounds.any (fun pr =>
                pr.1 == Nat.repr (st.rounds_by_game (pyStr g.id) + 1))) =
                false := by
              rw [Bool.eq_false_iff]
              intro hany
              obtain ⟨pr, hmem, hpr⟩ := List.any_eq_true.mp hany
              have hkey : pr.1 ∈ ge0.rounds.map Prod.fst :=
                List.mem_map.mpr ⟨pr, hmem, rfl⟩
              rw [hInv] at hkey
              obtain ⟨i, hi, hrepr⟩ := List.mem_map.mp hkey
              rw [List.mem_range] at hi
              have : i + 1 = st.rounds_by_game (pyStr g.id) + 1 :=
                nat_repr_injective (by
                  rw [hrepr]
                  exact beq_iff_eq.mp hpr)
              omega
            have hset : alistSet ge0.rounds
                (Nat.repr (st.rounds_by_game (pyStr g.id) + 1))
                { occurredAt := e.occurredAt, teams := extract_team_sides g
                  winner := find_round_winner g
                    ((st.rounds_by_game (pyStr g.id) + 1 : ℕ) : ℤ) } =
                ge0.rounds ++
                  [(Nat.repr (st.rounds_by_game (pyStr g.id) + 1),
                    { occurredAt := e.occurredAt
                      teams := extract_team_sides g
                      winner := find_round_winner g
                        ((st.rounds_by_game (pyStr g.id) + 1 : ℕ) :
                          ℤ) })] := by
              unfold alistSet
              rw [if_neg (by rw [hfresh]; simp)]
            rw [hset, List.map_append, hInv]
            simp [List.range_succ]
        · unfold roundsInv roundKeys
          dsimp only
          rw [alistGet?_alistSet_other _ _ _ _ hg]
          simp only [if_neg hg]
          exact h gid
  · simp only [hrs]
    simp only [Bool.false_eq_true, not_false_eq_true, ite_true]
    exact h gid

/-- Helper for C5: folding the resolver over a list of events adds, per
game, exactly the number of round-start events resolved to it, and keeps
the density invariant. -/
theorem foldl_parse_round_event (es : List PEvent) (st : ParseState) :
    (∀ gid, (es.foldl parse_round_event st).rounds_by_game gid =
      st.rounds_by_game gid +
        (es.filterMap resolved_game_id).count gid) ∧
    ((∀ g, roundsInv st g) →
      ∀ g, roundsInv (es.foldl parse_round_event st) g) := by
  induction es generalizing st with
  | nil => simp
  | cons e tl ih =>
    constructor
    · intro gid
      rw [List.foldl_cons, (ih (parse_round_event st e)).1 gid,
        parse_round_event_counter]
      cases hre : resolved_game_id e with
      | none => simp [List.filterMap_cons, hre]
      | some g' =>
        simp only [List.filterMap_cons, hre, List.count_cons]
        by_cases hgg : g' = gid
        · subst hgg
          rw [if_pos rfl, if_pos (beq_self_eq_true g')]
          omega
        · rw [if_neg (by simp [hgg]), if_neg (by simp [hgg])]
          omega
    · intro hInv
      rw [List.foldl_cons]
      exact (ih (parse_round_event st e)).2
        (parse_round_event_inv st e hInv)

/-- Helper for C5: the record-level seriesId bookkeeping touches neither
the counters nor the games table. -/
theorem parse_record_eq (st : ParseState) (r : PRecord) :
    (∀ gid, (parse_record st r).rounds_by_game gid =
      st.rounds_by_game gid +
        ((iter_events r).filterMap resolved_game_id).count gid) ∧
    ((∀ g, roundsInv st g) → ∀ g, roundsInv (parse_record st r) g) := by
  unfold parse_record
  by_cases hsid : optStr r.seriesId ≠ "" ∧ st.output.seriesId = none
  · rw [if_pos hsid]
    have base : ∀ g, roundsInv st g → roundsInv
        { st with output := { st.output with
          seriesId := r.seriesId } } g := by
      intro g hg
      unfold roundsInv roundKeys at hg ⊢
      exact hg
    constructor
    · intro gid
      exact (foldl_parse_round_event (iter_events r) _).1 gid
    · intro hInv
      exact (foldl_parse_round_event (iter_events r) _).2
        (fun g => base g (hInv g))
  · rw [if_neg hsid]
    exact foldl_parse_round_event (iter_events r) st

/-- Helper for C5: the full resolver pass, record by record. -/
theorem foldl_parse_record (records : List PRecord) (st : ParseState) :
    (∀ gid, (records.foldl parse_record st).rounds_by_game gid =
      st.rounds_by_game gid +
        ((all_events records).filterMap resolved_game_id).count gid) ∧
    ((∀ g, roundsInv st g) →
      ∀ g, roundsInv (records.foldl parse_record st) g) := by
  induction records generalizing st with
  | nil => simp [all_events]
  | cons r tl ih =>
    have hall : all_events (r :: tl) =
        iter_events r ++ all_events tl := by
      simp [all_events]
    constructor
    · intro gid
      rw [List.foldl_cons, (ih (parse_record st r)).1 gid,
        (parse_record_eq st r).1 gid, hall, List.filterMap_append,
        List.count_append]
      omega
    · intro hInv
      rw [List.foldl_cons]
      exact (ih (parse_record st r)).2 ((parse_record_eq st r).2 hInv)

/-- C5: for every record stream and game id, the resolver's counter equals
the number of round-start events resolved to that game, and the recorded
round keys for that game are exactly `"1" … "N"` (dense, 1-based, no
gaps, at most one per resolved round-start; events with no resolvable game
add no entry and bump no counter). -/
theorem C5_dense_round_numbers (records : List PRecord) (gid : String) :
    (parse_attack_defense_state records).rounds_by_game gid =
      ((all_events records).filterMap resolved_game_id).count gid ∧
    roundKeys (parse_attack_defense_rounds records) gid =
      (List.range (((all_events records).filterMap
        resolved_game_id).count gid)).map (fun i => Nat.repr (i + 1)) := by
  have h0 : ∀ g, roundsInv
      { rounds_by_game := fun _ => 0
        output := { seriesId := none, games := [] } : ParseState } g := by
    intro g
    unfold roundsInv roundKeys alistGet?
    simp
  have hfold := foldl_parse_record records
    { rounds_by_game := fun _ => 0
      output := { seriesId := none, games := [] } }
  have hcnt := hfold.1 gid
  have hinv := hfold.2 h0 gid
  constructor
  · unfold parse_attack_defense_state
    simpa using hcnt
  · unfold roundsInv at hinv
    calc roundKeys (parse_attack_defense_rounds records) gid =
        (List.range ((records.foldl parse_record
          { rounds_by_game := fun _ => 0
            output := { seriesId := none
                        games := [] } }).rounds_by_game gid)).map
          (fun i => Nat.repr (i + 1)) := hinv
      _ = _ := by
        rw [hcnt]
        simp
